import Mathlib

/-!
Shallow embedding of the HROG5 operator-console frontend logic
(src/core/frontend/static/js/control_panel.js and monitoring.js).

JSON values coming from the backend are modelled with Option: an absent or
null field is none.  JS truthiness of such an optional boolean is the
function truthy below.  JS numbers are modelled by JSNum: a finite value
(carried as an Int, the concrete magnitudes never matter to the verified
properties) or one of the non-finite values NaN / Infinity / -Infinity.
Asynchronous network calls are modelled by passing the outcome of each
call (Except errorMessage response) as an explicit oracle argument, and
every operation returns the list of command requests it actually posted
to the /commands/execute endpoint, so dispatch behaviour is observable.
-/

namespace HROG

/-- JS truthiness of an optional boolean JSON field: null and undefined are
falsy, otherwise the boolean itself. -/
def truthy : Option Bool → Bool
  | none => false
  | some b => b

/-- The six-flag status register of a StatusData payload
(fields may be absent in the JSON, hence Option Bool). -/
structure StatusRegister where
  ext_ref_error : Option Bool
  int_osc_error : Option Bool
  pll_lock_error : Option Bool
  tuning_voltage_error : Option Bool
  invalid_parameter : Option Bool
  invalid_command : Option Bool
deriving Repr, DecidableEq

/-- The register value produced by the JS expression
(data.status_register or an empty object): every field undefined. -/
def emptyRegister : StatusRegister :=
  { ext_ref_error := none, int_osc_error := none, pll_lock_error := none,
    tuning_voltage_error := none, invalid_parameter := none, invalid_command := none }

/-- Optional PLL diagnostic block of a StatusData payload. -/
structure Pll where
  osc_dbm : Option Int
  ref_dbm : Option Int
  lock_v : Option Int
  pll_v : Option Int
deriving Repr, DecidableEq

/-- The data field of a GET_STATUS CommandResponse. -/
structure StatusData where
  temperature : Option Int
  freq : Option Int
  phase : Option Int
  ffof : Option Int
  time_offset_ns : Option Int
  status_register : Option StatusRegister
  pll : Option Pll
deriving Repr, DecidableEq

/-- A StatusData with every field null or absent. -/
def emptyStatusData : StatusData :=
  { temperature := none, freq := none, phase := none, ffof := none,
    time_offset_ns := none, status_register := none, pll := none }

/-- Function anySreError of monitoring.js: false for a null register,
otherwise the JS-truthy OR of the six flags. -/
def anySreError : Option StatusRegister → Bool
  | none => false
  | some s =>
      truthy s.ext_ref_error || truthy s.int_osc_error || truthy s.pll_lock_error ||
      truthy s.tuning_voltage_error || truthy s.invalid_parameter || truthy s.invalid_command

/-- Function flagText of control_panel.js: null and undefined render as the
em-dash placeholder, true renders as the error word, false as OK. -/
def flagText : Option Bool → String
  | none => "—"
  | some b => if b then "Ошибка" else "OK"

/-- Function formatMaybe of control_panel.js: null and undefined render as
the em-dash placeholder, otherwise the value followed by its unit suffix. -/
def formatMaybe (v : Option Int) (suffix : String) : String :=
  match v with
  | none => "—"
  | some x => toString x ++ suffix

/-- The aggregate status-register cell of the monitoring history table
(renderStatusTable in monitoring.js): em-dash for a null register,
otherwise BAD or OK according to anySreError. -/
def sreCellText (sre : Option StatusRegister) : String :=
  match sre with
  | none => "—"
  | some s => if anySreError (some s) then "BAD" else "OK"

/-- The textual view written into the DOM by updateStatusUI of
control_panel.js (presentation-only fields such as the refresh timestamp
are omitted). -/
structure StatusView where
  tempText : String
  freqText : String
  phaseText : String
  ffofText : String
  toffsText : String
  sreBadge : String
  sreExt : String
  sreInt : String
  srePll : String
  sreTune : String
  sreParam : String
  sreCmd : String
  pllBadge : String
deriving Repr, DecidableEq

/-- Function updateStatusUI of control_panel.js, as the pure view it writes.
A null status_register is replaced by the empty object before the flags are
read, exactly as the JS expression (data.status_register or empty) does. -/
def updateStatusUI (data : StatusData) : StatusView :=
  let sre := data.status_register.getD emptyRegister
  let anyErr :=
    truthy sre.ext_ref_error || truthy sre.int_osc_error || truthy sre.pll_lock_error ||
    truthy sre.tuning_voltage_error || truthy sre.invalid_parameter || truthy sre.invalid_command
  { tempText := formatMaybe data.temperature " °C"
    freqText := formatMaybe data.freq " Hz"
    phaseText := formatMaybe data.phase " °"
    ffofText := formatMaybe data.ffof ""
    toffsText := formatMaybe data.time_offset_ns " ns"
    sreBadge := if anyErr then "Есть ошибки" else "OK"
    sreExt := flagText sre.ext_ref_error
    sreInt := flagText sre.int_osc_error
    srePll := flagText sre.pll_lock_error
    sreTune := flagText sre.tuning_voltage_error
    sreParam := flagText sre.invalid_parameter
    sreCmd := flagText sre.invalid_command
    pllBadge := match data.pll with
                | none => "нет данных"
                | some _ => "OK" }

/-- The proposition that at least one of the six register flags is the
boolean true. -/
def someFlagTrue (r : StatusRegister) : Prop :=
  r.ext_ref_error = some true ∨ r.int_osc_error = some true ∨
  r.pll_lock_error = some true ∨ r.tuning_voltage_error = some true ∨
  r.invalid_parameter = some true ∨ r.invalid_command = some true

/-- The proposition that all six register flags are the boolean false. -/
def allFlagsFalse (r : StatusRegister) : Prop :=
  r.ext_ref_error = some false ∧ r.int_osc_error = some false ∧
  r.pll_lock_error = some false ∧ r.tuning_voltage_error = some false ∧
  r.invalid_parameter = some false ∧ r.invalid_command = some false

/-- A JS number: a finite value (magnitude modelled as an Int) or one of the
three non-finite doubles. -/
inductive JSNum
  | num (v : Int)
  | nan
  | inf
  | ninf
deriving Repr, DecidableEq

/-- JS Number.isFinite. -/
def JSNum.isFinite : JSNum → Bool
  | num _ => true
  | _ => false

/-- The command codes used by the control panel. -/
inductive CommandCode
  | GET_STATUS
  | SET_FREQ
  | SET_PHASE
  | SET_TIME_OFFSET
  | STEP_FREQ
  | STEP_PHASE
  | STEP_TIME_OFFSET
  | SYNC
  | RESET_PHASE_COUNTER
  | CLEAR_STATUS
deriving Repr, DecidableEq

/-- The JSON body posted by runCommand to the /commands/execute endpoint.
The params mapping carries at most one key for every command the panel
sends, so it is modelled as an optional key-value pair. -/
structure CommandRequest where
  device_id : Nat
  command_code : CommandCode
  params : Option (String × JSNum)
  user_id : Option Nat
deriving Repr, DecidableEq

/-- The CommandResponse JSON returned by the /commands/execute endpoint. -/
structure CommandResponse where
  success : Bool
  data : Option StatusData
  duration_ms : Option Int
  status : Option String
  error : Option String
deriving Repr, DecidableEq

/-- Outcome of one awaited network call: either the parsed JSON response or
the message of the exception thrown (network failure or non-2xx HTTP). -/
abbrev ExecOutcome := Except String CommandResponse

/-- A device record of the registry, as consumed by the frontend. -/
structure Device where
  id : Nat
  name : String
  moxa_host : String
  moxa_port : Int
  is_enabled : Bool
deriving Repr, DecidableEq

/-- The module-level mutable state of control_panel.js, together with the
parts of the DOM the controller writes and later reads back or that the
claims observe.  conn is the setConn argument: some true paints the dot ok,
some false paints it bad, none leaves it neutral (pending).  statusView is
the displayed status block, none after clearStatusView.  lastPollOkById is
the JS Map keyed by device id (the key is Option Nat because the code
passes the module variable selectedId, which can be null). -/
structure SessionState where
  devices : List Device
  selectedId : Option Nat
  lastPollOkById : List (Option Nat × Bool)
  errorsCount : Nat
  conn : Option Bool
  connMsg : String
  statusView : Option StatusView
  lastDurationMs : Option Int
  enabledUI : Bool
  deviceActionsEnabled : Bool
deriving Repr, DecidableEq

/-- JS Map.prototype.set: update the entry for the key, or append it. -/
def mapSet (m : List (Option Nat × Bool)) (k : Option Nat) (v : Bool) :
    List (Option Nat × Bool) :=
  if m.any (fun p => p.1 == k) then
    m.map (fun p => if p.1 == k then (k, v) else p)
  else
    m ++ [(k, v)]

/-- JS Map.prototype.get (none when the key is absent). -/
def mapGet (m : List (Option Nat × Bool)) (k : Option Nat) : Option Bool :=
  (m.find? (fun p => p.1 == k)).map (fun p => p.2)

/-- Effect of renderDevices / setDeviceActionsEnabled on the modelled state:
the edit and delete buttons are enabled exactly when a device is selected
(renderDevices ends by calling setDeviceActionsEnabled). -/
def renderAfter (st : SessionState) : SessionState :=
  { st with deviceActionsEnabled := st.selectedId.isSome }

/-- Function runCommand of control_panel.js up to the network boundary: it
throws before any dispatch when no device is selected, and otherwise builds
the request body that is posted to /commands/execute.  The enabled flag of
the selected device is not consulted here. -/
def runCommand (st : SessionState) (code : CommandCode)
    (params : Option (String × JSNum)) : Except String CommandRequest :=
  match st.selectedId with
  | none => Except.error "Устройство не выбрано"
  | some sid =>
      Except.ok { device_id := sid, command_code := code, params := params, user_id := none }

/-- The GET_STATUS request refreshStatus posts for the device sid. -/
def getStatusReq (sid : Nat) : CommandRequest :=
  { device_id := sid, command_code := CommandCode.GET_STATUS, params := none, user_id := none }

/-- The continuation of refreshStatus after the awaited GET_STATUS call
resolves, executed against the state current at resolution time: the code
re-reads the module variable selectedId there, so the poll-health entry and
the displayed status are written for whichever device is selected at that
moment, not for the device the request targeted. -/
def refreshStatusResume (st : SessionState) (outcome : ExecOutcome) : SessionState :=
  match outcome with
  | Except.ok res =>
      renderAfter
        { st with
            lastPollOkById := mapSet st.lastPollOkById st.selectedId true
            statusView := some (updateStatusUI (res.data.getD emptyStatusData))
            lastDurationMs := res.duration_ms
            conn := some true
            connMsg := "Связь OK. Статус обновлён." }
  | Except.error e =>
      renderAfter
        { st with
            lastPollOkById := mapSet st.lastPollOkById st.selectedId false
            errorsCount := st.errorsCount + 1
            conn := some false
            connMsg := "Ошибка обновления статуса: " ++ e }

/-- Function refreshStatus of control_panel.js in the uninterrupted run
(nothing else touches the state between the dispatch and the resolution of
the GET_STATUS call).  Returns the new state and the list of requests
posted to the execution endpoint. -/
def refreshStatus (st : SessionState) (outcome : ExecOutcome) :
    SessionState × List CommandRequest :=
  match st.selectedId with
  | none => (st, [])
  | some sid =>
      match st.devices.find? (fun d => d.id == sid) with
      | none => (st, [])
      | some dev =>
          if dev.is_enabled = false then
            (renderAfter
              { st with
                  conn := some false
                  connMsg := "Устройство выключено (disabled)."
                  statusView := none
                  lastPollOkById := mapSet st.lastPollOkById (some sid) false }, [])
          else
            (refreshStatusResume st outcome, [getStatusReq sid])

/-- Function selectDevice of control_panel.js: records the selection, and
for a device found in the cache either clears the view and marks the
connection bad (disabled device, no network call) or enables the controls
and triggers a status refresh (enabled device). -/
def selectDevice (st : SessionState) (id : Nat) (refreshOutcome : ExecOutcome) :
    SessionState × List CommandRequest :=
  let st1 := renderAfter { st with selectedId := some id }
  match st1.devices.find? (fun d => d.id == id) with
  | none => (st1, [])
  | some dev =>
      if dev.is_enabled = false then
        ({ st1 with
            enabledUI := false
            statusView := none
            conn := some false
            connMsg := "Выбрано disabled устройство. Включи его в /devices." }, [])
      else
        refreshStatus
          { st1 with
              enabledUI := true
              conn := none
              connMsg := "Выбрано: " ++ dev.name ++ ". Нажми «Обновить статус» или R." }
          refreshOutcome

/-- Result of one UI-triggered operation: the final state, the command
requests posted to the execution endpoint in order, and the message of an
exception that escaped the operation (none when nothing was thrown or the
handler swallowed it). -/
structure OpResult where
  state : SessionState
  calls : List CommandRequest
  thrown : Option String
deriving Repr, DecidableEq

/-- Which big input a doSet invocation reads. -/
inductive SetType
  | freq
  | phase
  | toffs
deriving Repr, DecidableEq

/-- Command code sent by doSet for each input. -/
def setCode : SetType → CommandCode
  | SetType.freq => CommandCode.SET_FREQ
  | SetType.phase => CommandCode.SET_PHASE
  | SetType.toffs => CommandCode.SET_TIME_OFFSET

/-- Param key sent by doSet for each input. -/
def setKey : SetType → String
  | SetType.freq => "freq_hz"
  | SetType.phase => "phase_deg"
  | SetType.toffs => "toffset_ns"

/-- Command code sent by doStep for each input. -/
def stepCode : SetType → CommandCode
  | SetType.freq => CommandCode.STEP_FREQ
  | SetType.phase => CommandCode.STEP_PHASE
  | SetType.toffs => CommandCode.STEP_TIME_OFFSET

/-- Param key sent by doStep for each input. -/
def stepKey : SetType → String
  | SetType.freq => "step_hz"
  | SetType.phase => "step_deg"
  | SetType.toffs => "step_ns"

/-- Function parseNumberInput of control_panel.js applied to the JS Number
conversion of the input field content: throws on a non-finite result. -/
def parseNumberInput (raw : JSNum) : Except String JSNum :=
  if raw.isFinite = false then Except.error "Некорректное число"
  else Except.ok raw

/-- Function doSet of control_panel.js.  raw is the JS Number conversion of
the text in the corresponding input field.  outcome is the result of the
posted SET command, refreshOutcome the result of the follow-up GET_STATUS
(consulted only when refreshStatus actually dispatches one). -/
def doSet (st : SessionState) (ty : SetType) (raw : JSNum)
    (outcome refreshOutcome : ExecOutcome) : OpResult :=
  match st.selectedId with
  | none => { state := st, calls := [], thrown := none }
  | some sid =>
      match parseNumberInput raw with
      | Except.error e => { state := st, calls := [], thrown := some e }
      | Except.ok v =>
          let req : CommandRequest :=
            { device_id := sid, command_code := setCode ty,
              params := some (setKey ty, v), user_id := none }
          match outcome with
          | Except.error e => { state := st, calls := [req], thrown := some e }
          | Except.ok _ =>
              let res := refreshStatus st refreshOutcome
              { state := res.1, calls := req :: res.2, thrown := none }

/-- Function doStep of control_panel.js.  delta is the JS Number conversion
of the raw step attribute (the code applies Number(delta) and performs no
finiteness check before dispatch). -/
def doStep (st : SessionState) (ty : SetType) (delta : JSNum)
    (outcome refreshOutcome : ExecOutcome) : OpResult :=
  match st.selectedId with
  | none => { state := st, calls := [], thrown := none }
  | some sid =>
      let req : CommandRequest :=
        { device_id := sid, command_code := stepCode ty,
          params := some (stepKey ty, delta), user_id := none }
      match outcome with
      | Except.error e => { state := st, calls := [req], thrown := some e }
      | Except.ok _ =>
          let res := refreshStatus st refreshOutcome
          { state := res.1, calls := req :: res.2, thrown := none }

/-- The click handlers for the SYNC, RESET_PHASE_COUNTER and CLEAR_STATUS
buttons in wireUI of control_panel.js: run the command, and on success run
a status refresh; every exception is caught by the handler and only logged,
in particular the error counter is not touched. -/
def quickCommand (st : SessionState) (code : CommandCode)
    (outcome refreshOutcome : ExecOutcome) : OpResult :=
  match st.selectedId with
  | none => { state := st, calls := [], thrown := none }
  | some sid =>
      let req : CommandRequest :=
        { device_id := sid, command_code := code, params := none, user_id := none }
      match outcome with
      | Except.error _ => { state := st, calls := [req], thrown := none }
      | Except.ok _ =>
          let res := refreshStatus st refreshOutcome
          { state := res.1, calls := req :: res.2, thrown := none }

/-- Success path of reloadDevices of control_panel.js, after the fresh list
ds has been fetched: replaces the cache wholesale, re-validates the current
selection against ds only when preserveSelection is true, then re-renders
and, when nothing is selected, disables the controls and clears the view. -/
def reloadDevicesOk (st : SessionState) (preserveSelection : Bool)
    (ds : List Device) : SessionState :=
  let st1 := { st with devices := ds }
  let st2 :=
    if preserveSelection && st.selectedId.isSome then
      match st.selectedId with
      | some p =>
          if ds.any (fun d => d.id == p) then st1 else { st1 with selectedId := none }
      | none => st1
    else st1
  let st3 := renderAfter st2
  if st3.selectedId = none then
    { st3 with
        enabledUI := false
        statusView := none
        conn := none
        connMsg := "Выбери устройство слева." }
  else st3

/-- Function reloadDevices of control_panel.js: a registry failure
propagates to the caller, otherwise the success path runs. -/
def reloadDevices (st : SessionState) (preserveSelection : Bool)
    (listOutcome : Except String (List Device)) : Except String SessionState :=
  match listOutcome with
  | Except.error e => Except.error e
  | Except.ok ds => Except.ok (reloadDevicesOk st preserveSelection ds)

/-- Function onDeviceDelete of control_panel.js: after the operator
confirms, deletes the selected device, deselects, and reloads the registry
with preserveSelection false; any failure of the delete call or of the
reload is caught and increments the error counter. -/
def onDeviceDelete (st : SessionState) (confirmOk : Bool)
    (delOutcome : Except String Unit)
    (listOutcome : Except String (List Device)) : SessionState :=
  match st.selectedId with
  | none => st
  | some sid =>
      match st.devices.find? (fun d => d.id == sid) with
      | none => st
      | some _ =>
          if confirmOk = false then st
          else
            match delOutcome with
            | Except.error e =>
                renderAfter
                  { st with
                      errorsCount := st.errorsCount + 1
                      conn := some false
                      connMsg := "Ошибка удаления: " ++ e }
            | Except.ok _ =>
                let st1 := { st with selectedId := none, deviceActionsEnabled := false }
                match reloadDevices st1 false listOutcome with
                | Except.ok st2 => st2
                | Except.error e =>
                    renderAfter
                      { st1 with
                          errorsCount := st1.errorsCount + 1
                          conn := some false
                          connMsg := "Ошибка удаления: " ++ e }

/-- Function loadDevices of control_panel.js: on success replaces the cache
and resets the error counter to zero; on failure shows the error banner and
leaves the counter unchanged. -/
def loadDevices (st : SessionState) (listOutcome : Except String (List Device)) :
    SessionState :=
  match listOutcome with
  | Except.ok ds =>
      renderAfter
        { st with
            devices := ds
            errorsCount := 0
            enabledUI := false
            conn := none
            connMsg := "Выбери устройство слева."
            statusView := none }
  | Except.error e =>
      { st with conn := some false, connMsg := "Ошибка загрузки устройств: " ++ e }

/-! Concrete fixtures used by witnesses and counterexamples. -/

/-- A register with all six flags false. -/
def regAllFalse : StatusRegister :=
  { ext_ref_error := some false, int_osc_error := some false, pll_lock_error := some false,
    tuning_voltage_error := some false, invalid_parameter := some false,
    invalid_command := some false }

/-- A register with only the external-reference flag raised. -/
def regExtErr : StatusRegister :=
  { ext_ref_error := some true, int_osc_error := some false, pll_lock_error := some false,
    tuning_voltage_error := some false, invalid_parameter := some false,
    invalid_command := some false }

/-- A session state with nothing loaded and nothing selected. -/
def baseState : SessionState :=
  { devices := [], selectedId := none, lastPollOkById := [], errorsCount := 0,
    conn := none, connMsg := "", statusView := none, lastDurationMs := none,
    enabledUI := false, deviceActionsEnabled := false }

/-- A minimal successful command response. -/
def resOk : CommandResponse :=
  { success := true, data := none, duration_ms := none, status := none, error := none }

/-- Enabled devices 1 and 2 for the stale-response scenario. -/
def devA : Device :=
  { id := 1, name := "genA", moxa_host := "10.0.0.1", moxa_port := 4001, is_enabled := true }

/-- Second enabled device of the stale-response scenario. -/
def devB : Device :=
  { id := 2, name := "genB", moxa_host := "10.0.0.2", moxa_port := 4001, is_enabled := true }

/-- Device 1's telemetry: a recognisable temperature and a raised flag. -/
def dataA : StatusData :=
  { emptyStatusData with temperature := some 42, status_register := some regExtErr }

/-- The GET_STATUS response carrying device 1's telemetry. -/
def resA : CommandResponse :=
  { success := true, data := some dataA, duration_ms := some 7, status := some "ok",
    error := none }

/-- State with device 1 selected, before its GET_STATUS resolves. -/
def stSelA : SessionState :=
  { baseState with devices := [devA, devB], selectedId := some 1 }

/-- State after the operator has switched to device 2, while device 1's
GET_STATUS is still in flight. -/
def stAfterB : SessionState :=
  { baseState with
      devices := [devA, devB]
      selectedId := some 2
      lastPollOkById := [(some 1, true)] }

/-- A disabled device with id 3. -/
def devD3 : Device :=
  { id := 3, name := "genOff3", moxa_host := "10.0.0.3", moxa_port := 4001, is_enabled := false }

/-- State with the disabled device 3 selected. -/
def stD3 : SessionState :=
  { baseState with devices := [devD3], selectedId := some 3 }

/-- A disabled device with id 6. -/
def devD6 : Device :=
  { id := 6, name := "genOff6", moxa_host := "10.0.0.6", moxa_port := 4001, is_enabled := false }

/-- State with the disabled device 6 selected. -/
def stD6 : SessionState :=
  { baseState with devices := [devD6], selectedId := some 6 }

/-- An enabled device with id 5. -/
def devE5 : Device :=
  { id := 5, name := "gen5", moxa_host := "10.0.0.5", moxa_port := 4001, is_enabled := true }

/-- State with the enabled device 5 selected. -/
def stE5 : SessionState :=
  { baseState with devices := [devE5], selectedId := some 5 }

/-- A disabled device with id 11. -/
def devOff : Device :=
  { id := 11, name := "genOff11", moxa_host := "10.0.0.11", moxa_port := 4001,
    is_enabled := false }

/-- State holding the disabled device 11, nothing selected yet. -/
def stOff : SessionState :=
  { baseState with devices := [devOff] }

/-! Helper lemmas shared between the claim theorems. -/

/-- JS truthiness of an optional boolean is true exactly for some true. -/
theorem truthy_eq_true (f : Option Bool) : truthy f = true ↔ f = some true := by
  cases f with
  | none => simp [truthy]
  | some b => cases b <;> simp [truthy]

/-- When a device is selected, found in the cache and enabled, refreshStatus
posts exactly one GET_STATUS request for it and continues with the resume
continuation. -/
theorem refreshStatus_enabled_eq (st : SessionState) (sid : Nat) (dev : Device)
    (out : ExecOutcome) (h1 : st.selectedId = some sid)
    (h2 : st.devices.find? (fun d => d.id == sid) = some dev)
    (h3 : dev.is_enabled = true) :
    refreshStatus st out = (refreshStatusResume st out, [getStatusReq sid]) := by
  unfold refreshStatus
  rw [h1]
  simp only [h2, h3]
  simp

/-- The resume continuation of refreshStatus never decreases the error
counter (it adds one exactly on a failed outcome). -/
theorem refreshStatusResume_errors_ge (st : SessionState) (out : ExecOutcome) :
    st.errorsCount ≤ (refreshStatusResume st out).errorsCount := by
  cases out <;> simp [refreshStatusResume, renderAfter]

/-- refreshStatus never decreases the error counter. -/
theorem refreshStatus_errors_ge (st : SessionState) (out : ExecOutcome) :
    st.errorsCount ≤ (refreshStatus st out).1.errorsCount := by
  unfold refreshStatus
  split
  · exact Nat.le_refl _
  · split
    · exact Nat.le_refl _
    · split
      · simp [renderAfter]
      · exact refreshStatusResume_errors_ge st out

/-- Variant of the previous lemma taking the input counter through an
equation, convenient when the state argument is a record expression. -/
theorem refreshStatus_errors_ge_of_eq (st : SessionState) (out : ExecOutcome)
    (n : Nat) (h : st.errorsCount = n) :
    n ≤ (refreshStatus st out).1.errorsCount := by
  rw [← h]
  exact refreshStatus_errors_ge st out

/-- selectDevice never decreases the error counter. -/
theorem selectDevice_errors_ge (st : SessionState) (id : Nat) (out : ExecOutcome) :
    st.errorsCount ≤ (selectDevice st id out).1.errorsCount := by
  unfold selectDevice
  dsimp only
  split
  · exact Nat.le_refl _
  · split
    · exact Nat.le_refl _
    · exact refreshStatus_errors_ge_of_eq _ out _ rfl

/-- The success path of a registry reload keeps the error counter. -/
theorem reloadDevicesOk_errors_eq (st : SessionState) (p : Bool) (ds : List Device) :
    (reloadDevicesOk st p ds).errorsCount = st.errorsCount := by
  unfold reloadDevicesOk
  dsimp only
  repeat' split
  all_goals rfl

/-- A registry reload that returns ok keeps the error counter. -/
theorem reloadDevices_ok_errors_eq (st : SessionState) (p : Bool)
    (lout : Except String (List Device)) (st2 : SessionState)
    (h : reloadDevices st p lout = Except.ok st2) :
    st2.errorsCount = st.errorsCount := by
  cases lout with
  | error e => simp [reloadDevices] at h
  | ok ds =>
      simp only [reloadDevices] at h
      cases h
      exact reloadDevicesOk_errors_eq st p ds

/-- A reload with preserveSelection false keeps the selected id,
whatever the fresh list contains. -/
theorem reloadDevicesOk_false_selectedId (st : SessionState) (ds : List Device) :
    (reloadDevicesOk st false ds).selectedId = st.selectedId := by
  unfold reloadDevicesOk
  dsimp only
  rw [Bool.false_and, if_neg Bool.false_ne_true]
  split <;> rfl

/-- A reload with preserveSelection true clears a selected id that is
absent from the fresh list. -/
theorem reloadDevicesOk_true_absent_selectedId (st : SessionState)
    (ds : List Device) (p : Nat) (hp : st.selectedId = some p)
    (hab : ds.any (fun d => d.id == p) = false) :
    (reloadDevicesOk st true ds).selectedId = none := by
  unfold reloadDevicesOk
  rw [hp]
  dsimp only
  rw [if_pos (show (true && (some p).isSome) = true from rfl)]
  rw [hab, if_neg Bool.false_ne_true]
  simp [renderAfter]

/-- A reload with preserveSelection true keeps a selected id that is still
present in the fresh list. -/
theorem reloadDevicesOk_true_present_selectedId (st : SessionState)
    (ds : List Device) (p : Nat) (hp : st.selectedId = some p)
    (hpres : ds.any (fun d => d.id == p) = true) :
    (reloadDevicesOk st true ds).selectedId = some p := by
  unfold reloadDevicesOk
  rw [hp]
  dsimp only
  rw [if_pos (show (true && (some p).isSome) = true from rfl)]
  rw [hpres, if_pos rfl]
  simp [renderAfter]

/-- onDeviceDelete never decreases the error counter. -/
theorem onDeviceDelete_errors_ge (st : SessionState) (c : Bool)
    (dout : Except String Unit) (lout : Except String (List Device)) :
    st.errorsCount ≤ (onDeviceDelete st c dout lout).errorsCount := by
  unfold onDeviceDelete
  dsimp only
  split
  · exact Nat.le_refl _
  · split
    · exact Nat.le_refl _
    · split
      · exact Nat.le_refl _
      · split
        · simp [renderAfter]
        · split
          · next st2 heq =>
              exact Nat.le_of_eq (reloadDevices_ok_errors_eq _ _ _ _ heq).symm
          · simp [renderAfter]

/-- doSet never decreases the error counter. -/
theorem doSet_errors_ge (st : SessionState) (ty : SetType) (raw : JSNum)
    (out ref : ExecOutcome) :
    st.errorsCount ≤ (doSet st ty raw out ref).state.errorsCount := by
  unfold doSet
  dsimp only
  split
  · exact Nat.le_refl _
  · split
    · exact Nat.le_refl _
    · split
      · exact Nat.le_refl _
      · exact refreshStatus_errors_ge st ref

/-- doStep never decreases the error counter. -/
theorem doStep_errors_ge (st : SessionState) (ty : SetType) (delta : JSNum)
    (out ref : ExecOutcome) :
    st.errorsCount ≤ (doStep st ty delta out ref).state.errorsCount := by
  unfold doStep
  dsimp only
  split
  · exact Nat.le_refl _
  · split
    · exact Nat.le_refl _
    · exact refreshStatus_errors_ge st ref

/-- quickCommand never decreases the error counter. -/
theorem quickCommand_errors_ge (st : SessionState) (code : CommandCode)
    (out ref : ExecOutcome) :
    st.errorsCount ≤ (quickCommand st code out ref).state.errorsCount := by
  unfold quickCommand
  dsimp only
  split
  · exact Nat.le_refl _
  · split
    · exact Nat.le_refl _
    · exact refreshStatus_errors_ge st ref

/-! Claim theorems. -/

/-- C1: anySreError is true iff at least one of the six status-register
flags is true; it is false for a null register and false when all six
flags are false. -/
theorem anySreError_spec :
    (∀ r : StatusRegister, (anySreError (some r) = true ↔ someFlagTrue r)) ∧
    anySreError none = false ∧
    (∀ r : StatusRegister, allFlagsFalse r → anySreError (some r) = false) := by
  refine ⟨?_, rfl, ?_⟩
  · intro r
    simp only [anySreError, someFlagTrue, Bool.or_eq_true, truthy_eq_true]
    tauto
  · intro r h
    obtain ⟨h1, h2, h3, h4, h5, h6⟩ := h
    simp [anySreError, h1, h2, h3, h4, h5, h6, truthy]

/-- Witness for C1: the all-false register decodes as no error and the
register with the external-reference flag raised decodes as an error. -/
theorem anySreError_spec_witness :
    anySreError (some regAllFalse) = false ∧ anySreError (some regExtErr) = true :=
  ⟨anySreError_spec.2.2 regAllFalse ⟨rfl, rfl, rfl, rfl, rfl, rfl⟩,
   (anySreError_spec.1 regExtErr).mpr (Or.inl rfl)⟩

/-- C2 counterexample: for a StatusData whose status_register is null the
aggregate badge written by updateStatusUI is the string OK, identical to the
badge of the all-flags-false register, so the decoded view is not a distinct
unknown state and is exactly the ok state. -/
theorem updateStatusUI_nullRegister_ok_badge :
    (updateStatusUI emptyStatusData).sreBadge = "OK" ∧
    (updateStatusUI
        { emptyStatusData with status_register := some regAllFalse }).sreBadge = "OK" :=
  ⟨rfl, rfl⟩

/-- C2 amended: for a null status_register the six per-flag texts of
updateStatusUI and the aggregate cell of the monitoring table show the
em-dash unknown marker, but the aggregate badge of updateStatusUI shows OK,
the same text as the all-flags-false state. -/
theorem updateStatusUI_nullRegister_flags (data : StatusData)
    (h : data.status_register = none) :
    (updateStatusUI data).sreExt = "—" ∧ (updateStatusUI data).sreInt = "—" ∧
    (updateStatusUI data).srePll = "—" ∧ (updateStatusUI data).sreTune = "—" ∧
    (updateStatusUI data).sreParam = "—" ∧ (updateStatusUI data).sreCmd = "—" ∧
    (updateStatusUI data).sreBadge = "OK" ∧
    sreCellText data.status_register = "—" := by
  simp [updateStatusUI, h, emptyRegister, flagText, truthy, sreCellText]

/-- Witness for the amended C2 at the all-null StatusData. -/
theorem updateStatusUI_nullRegister_flags_witness :
    (updateStatusUI emptyStatusData).sreExt = "—" ∧
    (updateStatusUI emptyStatusData).sreInt = "—" ∧
    (updateStatusUI emptyStatusData).srePll = "—" ∧
    (updateStatusUI emptyStatusData).sreTune = "—" ∧
    (updateStatusUI emptyStatusData).sreParam = "—" ∧
    (updateStatusUI emptyStatusData).sreCmd = "—" ∧
    (updateStatusUI emptyStatusData).sreBadge = "OK" ∧
    sreCellText emptyStatusData.status_register = "—" :=
  updateStatusUI_nullRegister_flags emptyStatusData rfl

/-- C4: the GET_STATUS posted while device 1 was selected targets device 1,
but when its response resolves after the operator has switched to device 2,
the continuation of refreshStatus re-reads the current selection: it writes
device 1's decoded telemetry into the displayed status and marks device 2's
poll-health entry good.  The late response is applied, not discarded. -/
theorem staleResponse_overwrites_new_selection :
    (refreshStatus stSelA (Except.ok resA)).2 = [getStatusReq 1] ∧
    (refreshStatusResume stAfterB (Except.ok resA)).statusView =
      some (updateStatusUI dataA) ∧
    mapGet (refreshStatusResume stAfterB (Except.ok resA)).lastPollOkById (some 2) =
      some true := by
  refine ⟨rfl, rfl, rfl⟩

/-- C5: selecting a device that is present in the cache with its enabled
flag false posts no command request, sets the connection state to bad and
clears the displayed status. -/
theorem selectDevice_disabled (st : SessionState) (id : Nat) (dev : Device)
    (out : ExecOutcome)
    (h1 : st.devices.find? (fun d => d.id == id) = some dev)
    (h2 : dev.is_enabled = false) :
    (selectDevice st id out).2 = [] ∧
    (selectDevice st id out).1.conn = some false ∧
    (selectDevice st id out).1.statusView = none := by
  unfold selectDevice
  simp only [renderAfter]
  simp [h1, h2]

/-- Witness for C5: selecting the disabled device 11. -/
theorem selectDevice_disabled_witness :
    (selectDevice stOff 11 (Except.ok resOk)).2 = [] ∧
    (selectDevice stOff 11 (Except.ok resOk)).1.conn = some false ∧
    (selectDevice stOff 11 (Except.ok resOk)).1.statusView = none :=
  selectDevice_disabled stOff 11 devOff (Except.ok resOk) rfl rfl

/-- C3 counterexample: with the disabled device 3 selected, doStep posts a
STEP_FREQ request to the execution endpoint; the dispatch logic never reads
the enabled flag, which only the disabled UI controls would have stopped. -/
theorem doStep_dispatches_for_disabled_device :
    devD3.is_enabled = false ∧
    stD3.selectedId = some 3 ∧
    stD3.devices.find? (fun d => d.id == 3) = some devD3 ∧
    (doStep stD3 SetType.freq (JSNum.num 1) (Except.ok resOk) (Except.ok resOk)).calls =
      [{ device_id := 3, command_code := CommandCode.STEP_FREQ,
         params := some ("step_hz", JSNum.num 1), user_id := none }] :=
  ⟨rfl, rfl, rfl, rfl⟩

/-- C3 amended: the dispatch logic itself gates only on a device being
selected: runCommand throws before any dispatch when selectedId is null,
and otherwise builds and posts the request whatever the enabled flag of the
selected device is; the enabled gate for commands is enforced by disabling
the UI controls, plus refreshStatus's own early return. -/
theorem runCommand_gate_selection_only (st : SessionState) (code : CommandCode)
    (params : Option (String × JSNum)) :
    (st.selectedId = none →
      runCommand st code params = Except.error "Устройство не выбрано") ∧
    (∀ sid, st.selectedId = some sid →
      runCommand st code params =
        Except.ok { device_id := sid, command_code := code, params := params,
                    user_id := none }) := by
  constructor
  · intro h
    simp [runCommand, h]
  · intro sid h
    simp [runCommand, h]

/-- Witness for the amended C3: no dispatch without a selection, dispatch
with a selection even though the selected device 3 is disabled. -/
theorem runCommand_gate_selection_only_witness :
    runCommand stOff CommandCode.SYNC none = Except.error "Устройство не выбрано" ∧
    runCommand stD3 CommandCode.SYNC none =
      Except.ok { device_id := 3, command_code := CommandCode.SYNC, params := none,
                  user_id := none } :=
  ⟨(runCommand_gate_selection_only stOff CommandCode.SYNC none).1 rfl,
   (runCommand_gate_selection_only stD3 CommandCode.SYNC none).2 3 rfl⟩

/-- C6 counterexample: the SYNC command is dispatched for the selected
disabled device 6 and completes successfully, yet the follow-up refresh
returns before posting GET_STATUS: the trace is the single SYNC request. -/
theorem successful_sync_without_followup_getStatus :
    stD6.selectedId = some 6 ∧
    (quickCommand stD6 CommandCode.SYNC (Except.ok resOk) (Except.ok resOk)).calls =
      [{ device_id := 6, command_code := CommandCode.SYNC, params := none,
         user_id := none }] :=
  ⟨rfl, rfl⟩

/-- C6 amended: every mutating command that completes successfully while the
selected device is present in the registry cache with its enabled flag true
is immediately followed by a GET_STATUS request for that device; this holds
for the three doSet paths, the three doStep paths and the three quick
commands SYNC, RESET_PHASE_COUNTER and CLEAR_STATUS. -/
theorem mutating_command_followed_by_getStatus (st : SessionState) (sid : Nat)
    (dev : Device) (res : CommandResponse) (ref : ExecOutcome)
    (h1 : st.selectedId = some sid)
    (h2 : st.devices.find? (fun d => d.id == sid) = some dev)
    (h3 : dev.is_enabled = true) :
    (∀ ty raw v, parseNumberInput raw = Except.ok v →
      (doSet st ty raw (Except.ok res) ref).calls =
        [{ device_id := sid, command_code := setCode ty, params := some (setKey ty, v),
           user_id := none }, getStatusReq sid]) ∧
    (∀ ty delta,
      (doStep st ty delta (Except.ok res) ref).calls =
        [{ device_id := sid, command_code := stepCode ty,
           params := some (stepKey ty, delta), user_id := none }, getStatusReq sid]) ∧
    (∀ code, code = CommandCode.SYNC ∨ code = CommandCode.RESET_PHASE_COUNTER ∨
        code = CommandCode.CLEAR_STATUS →
      (quickCommand st code (Except.ok res) ref).calls =
        [{ device_id := sid, command_code := code, params := none, user_id := none },
         getStatusReq sid]) := by
  have hre := refreshStatus_enabled_eq st sid dev ref h1 h2 h3
  refine ⟨?_, ?_, ?_⟩
  · intro ty raw v hp
    simp [doSet, h1, hp, hre]
  · intro ty delta
    simp [doStep, h1, hre]
  · intro code _
    simp [quickCommand, h1, hre]

/-- Witness for the amended C6: a successful SET_FREQ on the enabled device
5 is followed by GET_STATUS. -/
theorem mutating_command_followed_by_getStatus_witness :
    (doSet stE5 SetType.freq (JSNum.num 10) (Except.ok resOk) (Except.ok resOk)).calls =
      [{ device_id := 5, command_code := CommandCode.SET_FREQ,
         params := some ("freq_hz", JSNum.num 10), user_id := none }, getStatusReq 5] :=
  (mutating_command_followed_by_getStatus stE5 5 devE5 resOk (Except.ok resOk)
      rfl rfl rfl).1 SetType.freq (JSNum.num 10) (JSNum.num 10) rfl

/-- C7 counterexample: doStep performs no finiteness check, so it posts a
STEP_FREQ request whose parameter is the non-finite NaN to the execution
endpoint. -/
theorem doStep_dispatches_nan :
    JSNum.nan.isFinite = false ∧
    (doStep stE5 SetType.freq JSNum.nan (Except.ok resOk) (Except.ok resOk)).calls =
      [{ device_id := 5, command_code := CommandCode.STEP_FREQ,
         params := some ("step_hz", JSNum.nan), user_id := none }, getStatusReq 5] :=
  ⟨rfl, rfl⟩

/-- C7 amended: operator input that parses to a non-finite number makes
doSet fail before any dispatch: no request is posted and, when a device is
selected, the validation error is thrown; the doStep paths, by contrast,
forward the converted delta without a finiteness check (see the
counterexample). -/
theorem doSet_nonfinite_no_dispatch (st : SessionState) (ty : SetType) (raw : JSNum)
    (out ref : ExecOutcome) (h : raw.isFinite = false) :
    (doSet st ty raw out ref).calls = [] ∧
    (st.selectedId.isSome = true →
      (doSet st ty raw out ref).thrown = some "Некорректное число") := by
  cases hsel : st.selectedId with
  | none => simp [doSet, hsel]
  | some sid =>
      constructor
      · simp [doSet, hsel, parseNumberInput, h]
      · intro _
        simp [doSet, hsel, parseNumberInput, h]

/-- Witness for the amended C7: NaN input on the selected enabled device 5
throws the validation error and posts nothing. -/
theorem doSet_nonfinite_no_dispatch_witness :
    (doSet stE5 SetType.freq JSNum.nan (Except.ok resOk) (Except.ok resOk)).calls = [] ∧
    (doSet stE5 SetType.freq JSNum.nan (Except.ok resOk) (Except.ok resOk)).thrown =
      some "Некорректное число" :=
  ⟨(doSet_nonfinite_no_dispatch stE5 SetType.freq JSNum.nan (Except.ok resOk)
      (Except.ok resOk) rfl).1,
   (doSet_nonfinite_no_dispatch stE5 SetType.freq JSNum.nan (Except.ok resOk)
      (Except.ok resOk) rfl).2 rfl⟩

/-- C8 counterexample: the SYNC command is dispatched for the selected
enabled device 5 and its execution fails, yet the error counter stays at
zero: a failed Command Executor call that does not increment the ledger. -/
theorem failed_sync_does_not_increment :
    stE5.errorsCount = 0 ∧
    (quickCommand stE5 CommandCode.SYNC (Except.error "HTTP 500") (Except.ok resOk)).calls =
      [{ device_id := 5, command_code := CommandCode.SYNC, params := none,
         user_id := none }] ∧
    (quickCommand stE5 CommandCode.SYNC (Except.error "HTTP 500")
        (Except.ok resOk)).state.errorsCount = 0 :=
  ⟨rfl, rfl, rfl⟩

/-- C8 amended: the error counter is incremented by every failed GET_STATUS
refresh and by every failure inside the delete flow; it is reset to zero
exactly by a successful full device-list load; every other modelled
operation leaves it unchanged or larger (it is monotone), and in particular
failed SET, STEP and quick commands and a failed initial load do not
increment it. -/
theorem errorsCount_ledger_policy :
    (∀ st sid dev e, st.selectedId = some sid →
        st.devices.find? (fun d => d.id == sid) = some dev → dev.is_enabled = true →
        (refreshStatus st (Except.error e)).1.errorsCount = st.errorsCount + 1) ∧
    (∀ st sid dev e lout, st.selectedId = some sid →
        st.devices.find? (fun d => d.id == sid) = some dev →
        (onDeviceDelete st true (Except.error e) lout).errorsCount =
          st.errorsCount + 1) ∧
    (∀ st ds, (loadDevices st (Except.ok ds)).errorsCount = 0) ∧
    (∀ st e, (loadDevices st (Except.error e)).errorsCount = st.errorsCount) ∧
    (∀ st out, st.errorsCount ≤ (refreshStatus st out).1.errorsCount) ∧
    (∀ st id out, st.errorsCount ≤ (selectDevice st id out).1.errorsCount) ∧
    (∀ st ty raw out ref, st.errorsCount ≤ (doSet st ty raw out ref).state.errorsCount) ∧
    (∀ st ty d out ref, st.errorsCount ≤ (doStep st ty d out ref).state.errorsCount) ∧
    (∀ st code out ref,
        st.errorsCount ≤ (quickCommand st code out ref).state.errorsCount) ∧
    (∀ st c dout lout, st.errorsCount ≤ (onDeviceDelete st c dout lout).errorsCount) ∧
    (∀ st p lout st2, reloadDevices st p lout = Except.ok st2 →
        st2.errorsCount = st.errorsCount) ∧
    (∀ st sid code e ref, st.selectedId = some sid →
        (quickCommand st code (Except.error e) ref).state.errorsCount = st.errorsCount) ∧
    (∀ st ty raw e ref,
        (doSet st ty raw (Except.error e) ref).state.errorsCount = st.errorsCount) ∧
    (∀ st ty d e ref,
        (doStep st ty d (Except.error e) ref).state.errorsCount = st.errorsCount) := by
  refine ⟨?_, ?_, ?_, ?_, ?_, ?_, ?_, ?_, ?_, ?_, ?_, ?_, ?_, ?_⟩
  · intro st sid dev e h1 h2 h3
    rw [refreshStatus_enabled_eq st sid dev (Except.error e) h1 h2 h3]
    simp [refreshStatusResume, renderAfter]
  · intro st sid dev e lout h1 h2
    unfold onDeviceDelete
    rw [h1]
    dsimp only
    simp [h2, renderAfter]
  · intro st ds
    simp [loadDevices, renderAfter]
  · intro st e
    simp [loadDevices]
  · intro st out
    exact refreshStatus_errors_ge st out
  · intro st id out
    exact selectDevice_errors_ge st id out
  · intro st ty raw out ref
    exact doSet_errors_ge st ty raw out ref
  · intro st ty d out ref
    exact doStep_errors_ge st ty d out ref
  · intro st code out ref
    exact quickCommand_errors_ge st code out ref
  · intro st c dout lout
    exact onDeviceDelete_errors_ge st c dout lout
  · intro st p lout st2 h
    exact reloadDevices_ok_errors_eq st p lout st2 h
  · intro st sid code e ref h1
    simp [quickCommand, h1]
  · intro st ty raw e ref
    cases hsel : st.selectedId with
    | none => simp [doSet, hsel]
    | some sid =>
        cases hp : parseNumberInput raw with
        | error m => simp [doSet, hsel, hp]
        | ok v => simp [doSet, hsel, hp]
  · intro st ty d e ref
    cases hsel : st.selectedId with
    | none => simp [doStep, hsel]
    | some sid => simp [doStep, hsel]

/-- Witness for the amended C8: a failed GET_STATUS refresh on device 5
increments the counter, a failed SYNC leaves it unchanged. -/
theorem errorsCount_ledger_policy_witness :
    (refreshStatus stE5 (Except.error "HTTP 502")).1.errorsCount =
      stE5.errorsCount + 1 ∧
    (quickCommand stE5 CommandCode.SYNC (Except.error "HTTP 502")
        (Except.ok resOk)).state.errorsCount = stE5.errorsCount := by
  obtain ⟨h1, h2, h3, h4, h5, h6, h7, h8, h9, h10, h11, h12, h13, h14⟩ :=
    errorsCount_ledger_policy
  exact ⟨h1 stE5 5 devE5 "HTTP 502" rfl rfl rfl,
         h12 stE5 5 CommandCode.SYNC "HTTP 502" (Except.ok resOk) rfl⟩

/-- C9: after the operator confirms the deletion of the selected device and
both the delete call and the registry reload succeed, nothing is selected
any more and the derived view state is cleared: no displayed status, the
command controls disabled, the device edit and delete actions disabled, and
the cache replaced by the fresh list. -/
theorem delete_selected_device_deselects (st : SessionState) (sid : Nat)
    (dev : Device) (ds : List Device) (h1 : st.selectedId = some sid)
    (h2 : st.devices.find? (fun d => d.id == sid) = some dev) :
    (onDeviceDelete st true (Except.ok ()) (Except.ok ds)).selectedId = none ∧
    (onDeviceDelete st true (Except.ok ()) (Except.ok ds)).statusView = none ∧
    (onDeviceDelete st true (Except.ok ()) (Except.ok ds)).enabledUI = false ∧
    (onDeviceDelete st true (Except.ok ()) (Except.ok ds)).deviceActionsEnabled = false ∧
    (onDeviceDelete st true (Except.ok ()) (Except.ok ds)).devices = ds := by
  unfold onDeviceDelete
  rw [h1]
  dsimp only
  simp [h2, reloadDevices, reloadDevicesOk, renderAfter]

/-- Witness for C9: deleting the selected device 5. -/
theorem delete_selected_device_deselects_witness :
    (onDeviceDelete stE5 true (Except.ok ()) (Except.ok [])).selectedId = none ∧
    (onDeviceDelete stE5 true (Except.ok ()) (Except.ok [])).statusView = none ∧
    (onDeviceDelete stE5 true (Except.ok ()) (Except.ok [])).enabledUI = false ∧
    (onDeviceDelete stE5 true (Except.ok ()) (Except.ok [])).deviceActionsEnabled = false ∧
    (onDeviceDelete stE5 true (Except.ok ()) (Except.ok [])).devices = [] :=
  delete_selected_device_deselects stE5 5 devE5 [] rfl rfl

/-- C10: a registry reload with preserveSelection false leaves the selected
id unchanged even when that id is absent from the fresh list; the
re-validation that deselects a vanished id runs only with preserveSelection
true, where a still-present id is kept and an absent one is cleared. -/
theorem reloadDevices_preserveSelection_semantics (st : SessionState)
    (ds : List Device) :
    ((reloadDevices st false (Except.ok ds)).map (fun s => s.selectedId) =
      Except.ok st.selectedId) ∧
    (∀ p, st.selectedId = some p → ds.any (fun d => d.id == p) = false →
      (reloadDevices st true (Except.ok ds)).map (fun s => s.selectedId) =
        Except.ok none) ∧
    (∀ p, st.selectedId = some p → ds.any (fun d => d.id == p) = true →
      (reloadDevices st true (Except.ok ds)).map (fun s => s.selectedId) =
        Except.ok (some p)) := by
  refine ⟨?_, ?_, ?_⟩
  · show Except.ok (reloadDevicesOk st false ds).selectedId = Except.ok st.selectedId
    rw [reloadDevicesOk_false_selectedId]
  · intro p hp hab
    show Except.ok (reloadDevicesOk st true ds).selectedId = Except.ok none
    rw [reloadDevicesOk_true_absent_selectedId st ds p hp hab]
  · intro p hp hpres
    show Except.ok (reloadDevicesOk st true ds).selectedId = Except.ok (some p)
    rw [reloadDevicesOk_true_present_selectedId st ds p hp hpres]

/-- Witness for C10: with device 5 selected and an empty fresh list, the
selection survives a preserveSelection false reload and is cleared by a
preserveSelection true reload. -/
theorem reloadDevices_preserveSelection_semantics_witness :
    (reloadDevices stE5 false (Except.ok ([] : List Device))).map
        (fun s => s.selectedId) = Except.ok (some 5) ∧
    (reloadDevices stE5 true (Except.ok ([] : List Device))).map
        (fun s => s.selectedId) = Except.ok none :=
  ⟨(reloadDevices_preserveSelection_semantics stE5 []).1,
   (reloadDevices_preserveSelection_semantics stE5 []).2.1 5 rfl rfl⟩

end HROG
